import Mathlib

/-!
Verification of the Google Merchant product transformer
(`src/dist/transformers/google-merchant-product.transformer.js`).

The transformer is a pure function of its input plus one wall-clock read
(`new Date().toISOString()` inside `addUtmParameters`), which we model as an
explicit `now : String` parameter.  The per-variant `field_mapping` override
document is typed `Record<string, unknown>` in the source, so it is embedded
as a dynamic JSON-like value `JVal`; the operations a JavaScript runtime can
fail on (calling `.replace` on a non-string, iterating a non-iterable, …)
return `Except String`.

Modelling conventions, noted where they matter:
* JS numbers are modelled as exact decimals (`JsNumber`, an integer mantissa
  over a power of ten — every JSON number literal is of this shape); IEEE-754
  rounding noise is out of scope of a shallow embedding, and is only remarked
  upon in comments.  The only arithmetic the transformer performs is `× 1e6`
  and `Math.round`, both exact on this type.
* `String(x)` on a number is modelled by `decimalString`, the exact finite
  decimal expansion (JS exponent notation for huge/tiny magnitudes is not
  modelled; it cannot change any claim settled here).
* `s.replace(pat, rep)` replaces the first occurrence, with `rep` taken
  literally (the JS `$`-substitution in replacement strings is not modelled;
  no claim depends on it).
* `Buffer.from(s)` is modelled as the list of code points of `s`; the ids and
  timestamps fed to it here are ASCII, where this coincides with UTF-8.
-/

set_option maxRecDepth 4000

namespace Feedology

/-- A JS number as an exact decimal: the value `mant / 10 ^ exp10`.  Every
JSON number literal has this shape, and the transformer's only arithmetic
(`× 1_000_000`, `Math.round`) is exact on it. -/
structure JsNumber where
  mant : Int
  exp10 : Nat
deriving DecidableEq

/-- Multiplication by `10 ^ n` (the `price × 1_000_000` conversions). -/
def JsNumber.mulPow10 (a : JsNumber) (n : Nat) : JsNumber :=
  if n ≤ a.exp10 then ⟨a.mant, a.exp10 - n⟩
  else ⟨a.mant * ((10 ^ (n - a.exp10) : Nat) : Int), 0⟩

/-- `Math.round`: floor of `x + 1/2` (also for negative values, matching JS). -/
def jsRound (a : JsNumber) : Int :=
  Int.fdiv (2 * a.mant + ((10 ^ a.exp10 : Nat) : Int)) (2 * ((10 ^ a.exp10 : Nat) : Int))

/-- Dynamic JSON-like value: the runtime type of everything reachable from the
schema-less `field_mapping` document. -/
inductive JVal where
  | str : String → JVal
  | num : JsNumber → JVal
  | jbool : Bool → JVal
  | null : JVal
  | arr : List JVal → JVal
  | obj : List (String × JVal) → JVal

/-- First-match association lookup, as JS property access on a plain object. -/
def lookupStr : List (String × JVal) → String → Option JVal
  | [], _ => none
  | (k, v) :: rest, key => if k = key then some v else lookupStr rest key

/-- JS property access `v[k]`: `undefined` (`none`) unless `v` is an object
with the key.  The transformer only dereferences values it has checked for
truthiness, so the `null`-dereference TypeError can never fire through this
helper. -/
def jget : JVal → String → Option JVal
  | .obj kvs, k => lookupStr kvs k
  | _, _ => none

/-- JS truthiness (a number is falsy exactly when its value is zero). -/
def truthy : JVal → Bool
  | .str s => !(s = "")
  | .num q => !(q.mant = 0)
  | .jbool b => b
  | .null => false
  | .arr _ => true
  | .obj _ => true

/-- Truthiness of a possibly-`undefined` value. -/
def otruthy : Option JVal → Bool
  | some v => truthy v
  | none => false

/-- Property access returning the value only when truthy — the shape of every
`if (group.field) use(group.field)` read in the transformer. -/
def jgetT (g : Option JVal) (k : String) : Option JVal :=
  match g.bind (fun x => jget x k) with
  | some v => if truthy v then some v else none
  | none => none

/-- JS `.length` where the transformer reads it: arrays and strings have one,
other values yield `undefined` (so `x.length > 0` is false). -/
def jlen : JVal → Option Nat
  | .arr xs => some xs.length
  | .str s => some s.length
  | _ => none

def isStr : JVal → Bool
  | .str _ => true
  | _ => false

def isArr : JVal → Bool
  | .arr _ => true
  | _ => false

/-- `typeof v === 'object' && v !== null` (arrays included). -/
def isObjLike : JVal → Bool
  | .obj _ => true
  | .arr _ => true
  | _ => false

/-- Decimal digits of a natural number. -/
def natDec (n : Nat) : String := Nat.repr n

/-- Decimal string of an integer, as JS `String(n)`. -/
def intDec (n : ℤ) : String :=
  if n < 0 then "-" ++ natDec n.natAbs else natDec n.natAbs

/-- Left-pad with `'0'` to the requested length. -/
def padZeros (s : String) (n : Nat) : String :=
  if n ≤ s.length then s else ⟨List.replicate (n - s.length) '0' ++ s.data⟩

/-- Drop factors of ten shared by the mantissa and the scale, so the printed
decimal is the shortest one (JS prints `2.5`, not `2.50`). -/
def canonDecimal : Int → Nat → Int × Nat
  | m, 0 => (m, 0)
  | m, e + 1 =>
    if Int.emod m 10 = 0 then canonDecimal (Int.ediv m 10) e else (m, e + 1)

/-- JS `String(q)` for a number, modelled exactly (no IEEE noise, no exponent
notation — the magnitudes where JS switches to exponent form are beyond every
value exercised here). -/
def decimalString (a : JsNumber) : String :=
  match canonDecimal a.mant a.exp10 with
  | (m, 0) => intDec m
  | (m, e) =>
    let s := padZeros (natDec m.natAbs) (e + 1)
    (if m < 0 then "-" else "") ++
      ⟨s.data.take (s.length - e)⟩ ++ "." ++ ⟨s.data.drop (s.length - e)⟩

/-- Replace the first occurrence of `pat` in a character list.  An empty
pattern inserts at the front, like JS `String.prototype.replace`. -/
def listReplaceFirst : List Char → List Char → List Char → List Char
  | [], pat, rep => if pat = [] then rep else []
  | c :: rest, pat, rep =>
    if (c :: rest).take pat.length = pat then rep ++ (c :: rest).drop pat.length
    else c :: listReplaceFirst rest pat rep

/-- JS `s.replace(pat, rep)` with a string pattern: first occurrence only,
replacement taken literally. -/
def strReplaceFirst (s pat rep : String) : String :=
  ⟨listReplaceFirst s.data pat.data rep.data⟩

/-- JS `String.prototype.trim`, on the whitespace class of `Char.isWhitespace`
(the inputs trimmed here are ordinary text, where the classes agree). -/
def jsTrim (s : String) : String :=
  ⟨((s.data.dropWhile Char.isWhitespace).reverse.dropWhile Char.isWhitespace).reverse⟩

/-- JS `Array.prototype.join(sep)` on strings (also `String.intercalate`,
re-derived here so its equations are convenient for induction). -/
def joinSep (sep : String) : List String → String
  | [] => ""
  | [x] => x
  | x :: y :: rest => x ++ sep ++ joinSep sep (y :: rest)

/-- JS `s.includes(c)` for a single-character needle. -/
def strContains (s : String) (c : Char) : Bool :=
  s.data.any (fun x => x = c)

/-- `p` is a prefix of `s`. -/
def strStarts (p s : String) : Bool :=
  s.data.take p.data.length = p.data

/-- JS `toUpperCase` (core `String.toUpper` is not kernel-reducible; the map
over characters is). -/
def jsToUpper (s : String) : String := ⟨s.data.map Char.toUpper⟩

/-- JS `toLowerCase`. -/
def jsToLower (s : String) : String := ⟨s.data.map Char.toLower⟩

mutual
/-- The string a JVal contributes inside `Array.prototype.join` (JS stringifies
each element, rendering `null`/`undefined` as the empty string). -/
def joinDisplay : JVal → String
  | .str s => s
  | .num q => decimalString q
  | .jbool b => if b then "true" else "false"
  | .null => ""
  | .arr xs => joinDisplayList xs
  | .obj _ => "[object Object]"

/-- JS `Array.prototype.join(',')` over dynamic values. -/
def joinDisplayList : List JVal → String
  | [] => ""
  | [x] => joinDisplay x
  | x :: y :: rest => joinDisplay x ++ "," ++ joinDisplayList (y :: rest)
end

/-- JS `v.toString()` for the values `product_category_id` can hold. -/
def jvalToStr : JVal → String
  | .str s => s
  | .num q => decimalString q
  | .jbool b => if b then "true" else "false"
  | .null => "null"
  | .arr xs => joinDisplayList xs
  | .obj _ => "[object Object]"

/-- Parse the leading decimal number of a character list (sign, integer part,
optional fraction).  JS `parseFloat`'s exponent forms and `Infinity` are not
modelled; no claim feeds them. -/
def parseDecChars (cs : List Char) : Option JsNumber :=
  let cs := cs.dropWhile Char.isWhitespace
  let (neg, cs) :=
    match cs with
    | '-' :: rest => (true, rest)
    | '+' :: rest => (false, rest)
    | _ => (false, cs)
  let intPart := cs.takeWhile Char.isDigit
  let cs := cs.dropWhile Char.isDigit
  let fracPart :=
    match cs with
    | '.' :: rest => rest.takeWhile Char.isDigit
    | _ => []
  if intPart = [] ∧ fracPart = [] then none
  else
    let digits : Nat := (intPart ++ fracPart).foldl (fun a c => a * 10 + (c.toNat - 48)) 0
    some ⟨if neg then -(digits : Int) else (digits : Int), fracPart.length⟩

/-- JS `parseFloat(v)` on a dynamic value (`none` = `NaN`).  Non-string inputs
are first coerced to strings; for arrays that coercion is `join(',')`, and
since `','` never continues a number, parsing the joined string equals parsing
the first element's string. -/
def jsParseFloat : JVal → Option JsNumber
  | .num q => some q
  | .str s => parseDecChars s.data
  | .arr [] => none
  | .arr (x :: _) => jsParseFloat x
  | _ => none

/-- JS `Object.entries(v)` for truthy `v` as iterated by the transformer:
objects yield their pairs, strings and arrays their indexed elements, other
primitives nothing. -/
def jentries : JVal → List (String × JVal)
  | .obj kvs => kvs
  | .str s => (List.range s.length).zip (s.data.map (fun c => JVal.str ⟨[c]⟩))
      |>.map (fun p => (natDec p.1, p.2))
  | .arr xs => ((List.range xs.length).zip xs).map (fun p => (natDec p.1, p.2))
  | _ => []

/-! ### Typed input records (src/types/transformer-input.ts) -/

/-- `TransformerShop`: `shop_name` and `domain` are nullable strings. -/
structure TransformerShop where
  shop_name : Option String
  domain : Option String

structure FeedGmcAccount where
  account_id : Option String

structure FeedGmc where
  account : Option FeedGmcAccount
  product_category_id : Option JVal

structure TransformerFeedMetadata where
  google_merchant_center : Option FeedGmc

structure FeedProductSettings where
  product_id : Option String
  product_title : Option String
  product_description : Option String
  brand_submission : Option String
  product_identifier : Option String
  enable_sale_price : Option Bool

structure FeedTracking where
  utm_source : Option String
  utm_medium : Option String
  utm_campaign : Option String

structure FeedInventory where
  type : Option String
  custom_setting : Option String

structure TransformerFeed where
  id : String
  shop_id : String
  language : String
  market : String
  currency : String
  product_settings : Option FeedProductSettings
  metadata : Option TransformerFeedMetadata
  tracking : Option FeedTracking
  inventory : Option FeedInventory

structure ProductCategory where
  name : Option String
  full_name : Option String

structure ProductCollections where
  collections : Option (List (Option String))

structure ProductTags where
  tags : Option (List String)

structure ProductSeo where
  title : Option String
  description : Option String

structure TransformerProduct where
  id : Option String
  title : Option String
  description : Option String
  vendor : Option String
  handle : Option String
  product_type : Option String
  category : Option ProductCategory
  collections : Option ProductCollections
  tags : Option ProductTags
  seo : Option ProductSeo

structure TransformerProductVariant where
  id : String
  title : Option String
  display_name : Option String
  sku : Option String
  barcode : Option String
  price : Option JsNumber
  compare_at_price : Option JsNumber

structure FpvGmcMetadata where
  offer_id : Option String

structure FpvMetadata where
  google_merchant_center : Option FpvGmcMetadata

/-- The join entity; `field_mapping` is `Record<string, unknown>` in the
source, hence a dynamic value here. -/
structure TransformerFeedProductVariant where
  product_id : String
  variant_id : String
  field_mapping : Option JVal
  metadata : Option FpvMetadata

structure GoogleMerchantProductTransformInput where
  shop : TransformerShop
  feed : TransformerFeed
  product : TransformerProduct
  variant : TransformerProductVariant
  mainImage : Option String
  feedProductVariant : TransformerFeedProductVariant

/-! ### Output record (`ProductInput`) -/

structure PriceAmount where
  amountMicros : String
  currencyCode : String

structure SalePriceEffectiveDate where
  startTime : Option JVal
  endTime : Option JVal

structure SalePriceResult where
  salePrice : PriceAmount
  salePriceEffectiveDate : SalePriceEffectiveDate

structure GtinsMpnResult where
  gtins : Option (List String)
  mpn : Option String

/-- One certification after the `{authority,name,code,value}` →
`certification*` renaming; a truthy non-string source field survives as-is,
hence `JVal` fields. -/
structure Certification where
  certificationAuthority : JVal
  certificationName : JVal
  certificationCode : JVal
  certificationValue : JVal

structure ShippingMeasure where
  value : JVal
  unit : Option JVal

structure CustomAttribute where
  name : String
  value : JVal

structure Attributes where
  itemGroupId : String
  title : String
  description : String
  identifierExists : JVal
  price : PriceAmount
  brand : Option String
  gtins : Option (List String)
  mpn : Option String
  link : Option String
  canonicalLink : Option String
  imageLink : Option JVal
  additionalImageLinks : Option JVal
  salePrice : Option PriceAmount
  salePriceEffectiveDate : Option SalePriceEffectiveDate
  autoPricingMinPrice : Option PriceAmount
  maximumRetailPrice : Option PriceAmount
  condition : Option JVal
  availability : Option JVal
  productTypes : Option (List String)
  googleProductCategory : Option JVal
  customLabel0 : Option JVal
  customLabel1 : Option JVal
  customLabel2 : Option JVal
  customLabel3 : Option JVal
  customLabel4 : Option JVal
  gender : Option JVal
  ageGroup : Option JVal
  size : Option JVal
  sizeTypes : Option JVal
  sizeSystem : Option JVal
  color : Option JVal
  material : Option JVal
  pattern : Option JVal
  adult : Option JVal
  isBundle : Option JVal
  multipack : Option JVal
  energyEfficiencyClass : Option JVal
  minEnergyEfficiencyClass : Option JVal
  maxEnergyEfficiencyClass : Option JVal
  productHighlights : Option JVal
  certifications : Option (List Certification)
  shippingLabel : Option JVal
  shippingWeight : Option ShippingMeasure
  shippingLength : Option ShippingMeasure
  shippingWidth : Option ShippingMeasure
  shippingHeight : Option ShippingMeasure
  transitTimeLabel : Option JVal
  minHandlingTime : Option JVal
  maxHandlingTime : Option JVal

structure ProductInput where
  name : Option String
  channel : String
  offerId : String
  contentLanguage : String
  feedLabel : String
  attributes : Attributes
  customAttributes : List CustomAttribute

/-! ### The tracking token (`encryptToString`)

`Buffer.from(JSON.stringify({feedId, shopId, createdAt})).toString('base64')`. -/

/-- JSON string literal with `"`/`\` escaping (the ids and ISO timestamps fed
here contain neither control characters nor non-ASCII text). -/
def jsonStr (s : String) : String :=
  "\"" ++ ⟨s.data.foldr (fun c acc =>
    if c = '"' ∨ c = '\\' then '\\' :: c :: acc else c :: acc) []⟩ ++ "\""

/-- `JSON.stringify({feedId, shopId, createdAt})` in insertion order. -/
def tokenJson (feedId shopId createdAt : String) : String :=
  "\x7b\"feedId\":" ++ jsonStr feedId ++ ",\"shopId\":" ++ jsonStr shopId ++
    ",\"createdAt\":" ++ jsonStr createdAt ++ "\x7d"

def b64Char (n : Nat) : Char :=
  ("ABCDEFGHIJKLMNOPQRSTUVWXYZabcdefghijklmnopqrstuvwxyz0123456789+/").data.getD n 'A'

/-- Standard base64 with padding, over byte values. -/
def b64Chunks : List Nat → List Char
  | [] => []
  | [a] => [b64Char (a / 4), b64Char (a % 4 * 16), '=', '=']
  | [a, b] => [b64Char (a / 4), b64Char (a % 4 * 16 + b / 16), b64Char (b % 16 * 4), '=']
  | a :: b :: c :: rest =>
    b64Char (a / 4) :: b64Char (a % 4 * 16 + b / 16) ::
      b64Char (b % 16 * 4 + c / 64) :: b64Char (c % 64) :: b64Chunks rest

/-- Bytes of a string; the token contents are ASCII, where code points and
UTF-8 bytes agree. -/
def strBytes (s : String) : List Nat := s.data.map (fun c => c.toNat)

/-- The `fdclid` token: base64 of the JSON tracking document. -/
def encryptToString (feedId shopId createdAt : String) : String :=
  ⟨b64Chunks (strBytes (tokenJson feedId shopId createdAt))⟩

/-! ### Field-mapping access helpers -/

/-- `feedProductVariant.field_mapping?.<group>` (undefined-safe). -/
def fmGet (fpv : TransformerFeedProductVariant) (g : String) : Option JVal :=
  fpv.field_mapping.bind (fun m => jget m g)

/-- `field_mapping.<group>.<field>`, kept only when truthy — the shape of
every `if (group.field)` override read. -/
def fmFieldT (fpv : TransformerFeedProductVariant) (g k : String) : Option JVal :=
  jgetT (fmGet fpv g) k

/-- Keep a value only when truthy (`if (x) use(x)`). -/
def jTruthyOpt : Option JVal → Option JVal
  | some x => if truthy x then some x else none
  | none => none

/-- JS `a || b` on an optional string (empty string is falsy). -/
def jsOr (a : Option String) (b : String) : String :=
  match a with
  | some s => if s = "" then b else s
  | none => b

/-- JS `a || null` on an optional string. -/
def strOrNull (a : Option String) : Option String :=
  match a with
  | some s => if s = "" then none else some s
  | none => none

/-! ### Field resolvers (one per source helper) -/

/-- `getItemGroupId`: default `product_id`; a truthy override template has
`.replace` called on it, a TypeError when it is not a string. -/
def getItemGroupId (fpv : TransformerFeedProductVariant) : Except String String :=
  match fmFieldT fpv "product_details" "item_group_id" with
  | some (.str s) =>
    .ok (strReplaceFirst
      (strReplaceFirst s "\x7b\x7bproduct_id\x7d\x7d" fpv.product_id)
      "\x7b\x7bvariant_id\x7d\x7d" fpv.variant_id)
  | some _ => .error "TypeError: itemGroupId template has no replace method"
  | none => .ok fpv.product_id

/-- The template branch of `getProductId` over `feed.product_settings`. -/
def productIdTemplate (feed : TransformerFeed) (fpv : TransformerFeedProductVariant) : String :=
  match feed.product_settings.bind (fun s => s.product_id) with
  | some s =>
    if s = "" then ""
    else
      strReplaceFirst
        (strReplaceFirst
          (strReplaceFirst s "\x7b\x7bshop_id\x7d\x7d" feed.shop_id)
          "\x7b\x7bproduct_id\x7d\x7d" fpv.product_id)
        "\x7b\x7bvariant_id\x7d\x7d" fpv.variant_id
  | none => ""

/-- `getProductId`: the metadata `offer_id` wins when truthy, else the feed
product-id template, else the empty string. -/
def getProductId (feed : TransformerFeed) (fpv : TransformerFeedProductVariant) : String :=
  match (fpv.metadata.bind (fun m => m.google_merchant_center)).bind (fun g => g.offer_id) with
  | some o => if o = "" then productIdTemplate feed fpv else o
  | none => productIdTemplate feed fpv

/-- The placeholder chain applied to the resolved title template, in source
order. -/
def titleSubst (t : String) (product : TransformerProduct) (variant : TransformerProductVariant) : String :=
  strReplaceFirst
    (strReplaceFirst
      (strReplaceFirst
        (strReplaceFirst
          (strReplaceFirst
            (strReplaceFirst t "\x7b\x7bproduct_title\x7d\x7d" (product.title.getD ""))
            "\x7b\x7bvariant_title\x7d\x7d" (variant.title.getD ""))
          "\x7b\x7bdisplay_name\x7d\x7d" (jsOr variant.display_name (jsOr product.title "")))
        "\x7b\x7bseo_title\x7d\x7d" ((product.seo.bind (fun s => s.title)).getD ""))
      "\x7b\x7bsku\x7d\x7d" (variant.sku.getD ""))
    "\x7b\x7bbarcode\x7d\x7d" (variant.barcode.getD "")

/-- `getTitle`: feed title template, overridden by
`field_mapping.product_details.product_title`, then substituted. -/
def getTitle (feed : TransformerFeed) (product : TransformerProduct)
    (variant : TransformerProductVariant) (fpv : TransformerFeedProductVariant) :
    Except String String :=
  match fmFieldT fpv "product_details" "product_title" with
  | some (.str s) => .ok (titleSubst s product variant)
  | some _ => .error "TypeError: title template has no replace method"
  | none => .ok (titleSubst ((feed.product_settings.bind (fun s => s.product_title)).getD "") product variant)

/-- The placeholder chain of `getDescription`. -/
def descriptionSubst (t : String) (product : TransformerProduct) : String :=
  strReplaceFirst
    (strReplaceFirst t "\x7b\x7bdescription\x7d\x7d" (product.description.getD ""))
    "\x7b\x7bseo_description\x7d\x7d" ((product.seo.bind (fun s => s.description)).getD "")

/-- `getDescription`: feed description template, overridden by
`field_mapping.product_details.description`, then substituted. -/
def getDescription (feed : TransformerFeed) (product : TransformerProduct)
    (_variant : TransformerProductVariant) (fpv : TransformerFeedProductVariant) :
    Except String String :=
  match fmFieldT fpv "product_details" "description" with
  | some (.str s) => .ok (descriptionSubst s product)
  | some _ => .error "TypeError: description template has no replace method"
  | none => .ok (descriptionSubst ((feed.product_settings.bind (fun s => s.product_description)).getD "") product)

/-- `getAccountId`: `feed.metadata?.google_merchant_center?.account?.account_id`
with a falsy value collapsing to the empty string. -/
def getAccountId (feed : TransformerFeed) : String :=
  match ((feed.metadata.bind (fun m => m.google_merchant_center)).bind
      (fun g => g.account)).bind (fun a => a.account_id) with
  | some a => a
  | none => ""

/-- `getIdentifierExists`: `false` unless the override sets a truthy value, in
which case that raw value is kept (the source stores the value itself, not a
boolean). -/
def getIdentifierExists (fpv : TransformerFeedProductVariant) : JVal :=
  match fmFieldT fpv "product_details" "product_identifier" with
  | some v => v
  | none => .jbool false

/-- `replaceTemplateVariables`, in source order. -/
def replaceTemplateVariables (template : String) (variant : TransformerProductVariant)
    (fpv : TransformerFeedProductVariant) : String :=
  strReplaceFirst
    (strReplaceFirst
      (strReplaceFirst
        (strReplaceFirst template "\x7b\x7bbarcode\x7d\x7d" (variant.barcode.getD ""))
        "\x7b\x7bsku\x7d\x7d" (variant.sku.getD ""))
      "\x7b\x7bproduct_id\x7d\x7d" fpv.product_id)
    "\x7b\x7bvariant_id\x7d\x7d" fpv.variant_id

/-- Read a truthy gtin/mpn override and substitute it; `.replace` on a truthy
non-string raises. -/
def readTemplateField (v : Option JVal) (variant : TransformerProductVariant)
    (fpv : TransformerFeedProductVariant) : Except String (Option String) :=
  match v with
  | some (.str s) => .ok (some (replaceTemplateVariables s variant fpv))
  | some _ => .error "TypeError: identifier template has no replace method"
  | none => .ok none

/-- `getGtinsMpn`: only when `identifierExists` is truthy and the feed's
identifier type is set and not `'no'`; both templates are substituted before
the type branch; empty-after-trim values are dropped; the gtin branch never
yields an mpn and conversely. -/
def getGtinsMpn (feed : TransformerFeed) (variant : TransformerProductVariant)
    (fpv : TransformerFeedProductVariant) : Except String (Option GtinsMpnResult) :=
  if truthy (getIdentifierExists fpv) = false then .ok none
  else
    match feed.product_settings.bind (fun s => s.product_identifier) with
    | none => .ok none
    | some pid =>
      if pid = "" ∨ pid = "no" then .ok none
      else do
        let gtinT ← readTemplateField (fmFieldT fpv "product_details" "gtin") variant fpv
        let mpnT ← readTemplateField (fmFieldT fpv "product_details" "mpn") variant fpv
        let validGtins : List String :=
          match gtinT with
          | some g => if g ≠ "" ∧ jsTrim g ≠ "" then [g] else []
          | none => []
        let validMpn : Option String :=
          match mpnT with
          | some m => if m ≠ "" ∧ jsTrim m ≠ "" then some m else none
          | none => none
        if pid = "gtin" then
          .ok (if validGtins.length > 0 then some ⟨some validGtins, none⟩ else none)
        else if pid = "mpn" then
          .ok (match validMpn with
            | some m => some ⟨none, some m⟩
            | none => none)
        else .ok none

/-- The product link before UTM decoration (`getLink` up to the `switch`).
JS `+` stringifies a null/absent domain or handle; neither occurs in any
claim's input. -/
def rawProductLink (shop : TransformerShop) (product : TransformerProduct)
    (variant : TransformerProductVariant) (fpv : TransformerFeedProductVariant) : String :=
  let base := shop.domain.getD "null" ++ "/products/" ++ product.handle.getD "undefined"
  let linkType : JVal :=
    match fmFieldT fpv "links" "product_url" with
    | some v => v
    | none => .str "product_url"
  match linkType with
  | .str "product_url" => base ++ "?variant=" ++ variant.id
  | .str "product_checkout_url" =>
    shop.domain.getD "null" ++ "/cart/" ++ variant.id ++ ":1?storefront=true"
  | _ => base

def utmParam (name : String) (v : Option String) : List String :=
  match v with
  | some s => if s = "" then [] else [name ++ "=" ++ s]
  | none => []

def utmParamJ (name : String) (v : Option JVal) : List String :=
  match v with
  | some x => [name ++ "=" ++ jvalToStr x]
  | none => []

/-- The UTM parameters of `addUtmParameters`, feed tracking first, then the
`links` override group (the source pushes both — it does not de-duplicate). -/
def utmList (feed : TransformerFeed) (fpv : TransformerFeedProductVariant) : List String :=
  (match feed.tracking with
   | some tr =>
     utmParam "utm_source" tr.utm_source ++ utmParam "utm_medium" tr.utm_medium ++
       utmParam "utm_campaign" tr.utm_campaign
   | none => []) ++
  (utmParamJ "utm_source" (fmFieldT fpv "links" "utm_source") ++
   utmParamJ "utm_medium" (fmFieldT fpv "links" "utm_medium") ++
   utmParamJ "utm_campaign" (fmFieldT fpv "links" "utm_campaign"))

/-- `addUtmParameters`: append the UTM parameters and the always-present
`fdclid` token, joined to the link with `?` when it has no query string yet
and `&` otherwise. -/
def addUtmParameters (link : String) (feed : TransformerFeed)
    (fpv : TransformerFeedProductVariant) (now : String) : String :=
  let parts := utmList feed fpv ++ ["fdclid=" ++ encryptToString feed.id feed.shop_id now]
  if strContains link '?' then link ++ "&" ++ joinSep "&" parts
  else link ++ "?" ++ joinSep "&" parts

/-- `getLink`: decorated link with `https://` prepended. -/
def getLink (shop : TransformerShop) (feed : TransformerFeed) (product : TransformerProduct)
    (variant : TransformerProductVariant) (fpv : TransformerFeedProductVariant)
    (now : String) : String :=
  "https://" ++ addUtmParameters (rawProductLink shop product variant fpv) feed fpv now

/-- `getCanonicalLink`: always `https://{domain}/products/{handle}` (no
variant id — asymmetric with the product link, preserved from the source). -/
def getCanonicalLink (shop : TransformerShop) (product : TransformerProduct) : String :=
  "https://" ++ (shop.domain.getD "null" ++ "/products/" ++ product.handle.getD "undefined")

/-- `getImageLink`: truthy override wins over the caller-resolved main image. -/
def getImageLink (mainImage : Option String) (fpv : TransformerFeedProductVariant) : Option JVal :=
  match fmFieldT fpv "product_images" "main_image" with
  | some v => some v
  | none => mainImage.map JVal.str

/-- `getAdditionalImageLinks`: defaults to the empty array. -/
def getAdditionalImageLinks (fpv : TransformerFeedProductVariant) : JVal :=
  match fmFieldT fpv "product_images" "additional_images" with
  | some v => v
  | none => .arr []

/-- `getPriceAmountMicros`: price-type toggle read from
`product_details.price_condition_availability.price` (note: nested under
`product_details`, unlike `getPrice`), guarded by a `typeof === 'object'`
check; an unrecognized type leaves the amount 0. -/
def getPriceAmountMicros (variant : TransformerProductVariant)
    (fpv : TransformerFeedProductVariant) : String :=
  let priceType : JVal :=
    match fmFieldT fpv "product_details" "price_condition_availability" with
    | some v =>
      if isObjLike v then
        match jgetT (some v) "price" with
        | some p => p
        | none => .str "price"
      else .str "price"
    | none => .str "price"
  let pam : JsNumber :=
    match priceType with
    | .str "price" => variant.price.getD ⟨0, 0⟩
    | .str "compare_at_price" => variant.compare_at_price.getD ⟨0, 0⟩
    | _ => ⟨0, 0⟩
  decimalString (pam.mulPow10 6)

/-- `getPrice`: price-type toggle from
`field_mapping.price_condition_availability.price`; `String((x || 0) * 1e6)`
with no rounding; an unrecognized type yields null (so the
`getPriceAmountMicros` value survives in `transform`). -/
def getPrice (variant : TransformerProductVariant)
    (fpv : TransformerFeedProductVariant) : Option String :=
  let priceType : JVal :=
    match fmFieldT fpv "price_condition_availability" "price" with
    | some v => v
    | none => .str "price"
  match priceType with
  | .str "price" => some (decimalString ((variant.price.getD ⟨0, 0⟩).mulPow10 6))
  | .str "compare_at_price" => some (decimalString ((variant.compare_at_price.getD ⟨0, 0⟩).mulPow10 6))
  | _ => none

/-- `getBrand`: selector-driven source (`vendor`/`store_name`/`primary_domain`),
override taking precedence over the feed's `brand_submission`. -/
def getBrand (feed : TransformerFeed) (shop : TransformerShop)
    (product : TransformerProduct) (fpv : TransformerFeedProductVariant) : Option String :=
  let src : Option JVal :=
    match fmFieldT fpv "product_details" "brand" with
    | some v => some v
    | none =>
      match feed.product_settings.bind (fun s => s.brand_submission) with
      | some s => if s = "" then none else some (.str s)
      | none => none
  match src with
  | some (.str "vendor") => strOrNull product.vendor
  | some (.str "store_name") => strOrNull shop.shop_name
  | some (.str "primary_domain") => strOrNull shop.domain
  | some _ => none
  | none => none

/-- `getSalePrice`: double gate (feed `enable_sale_price`, then the override
group's own `enable_sale_price`); the amount defaults to `""` for an absent or
unrecognized sale-price type; `currencyCode` is initialized to `""` and never
assigned in the source; dates are copied verbatim when truthy. -/
def getSalePrice (feed : TransformerFeed) (variant : TransformerProductVariant)
    (fpv : TransformerFeedProductVariant) : Option SalePriceResult :=
  if (feed.product_settings.bind (fun s => s.enable_sale_price)).getD false = false then none
  else
    let pca := fmGet fpv "price_condition_availability"
    if otruthy pca = false then none
    else if otruthy (pca.bind (fun v => jget v "enable_sale_price")) = false then none
    else
      let amount : String :=
        match jgetT pca "sale_price" with
        | some (.str "price") => decimalString ((variant.price.getD ⟨0, 0⟩).mulPow10 6)
        | some (.str "compare_at_price") => decimalString ((variant.compare_at_price.getD ⟨0, 0⟩).mulPow10 6)
        | _ => ""
      some ⟨⟨amount, ""⟩, ⟨jgetT pca "sale_start_date", jgetT pca "sale_end_date"⟩⟩

def getAutoPricingMinPrice (fpv : TransformerFeedProductVariant) : Option JVal :=
  fmFieldT fpv "price_condition_availability" "auto_pricing_min_price"

def getMaximumRetailPrice (fpv : TransformerFeedProductVariant) : Option JVal :=
  fmFieldT fpv "price_condition_availability" "maximum_retail_price"

def getCondition (fpv : TransformerFeedProductVariant) : Option JVal :=
  fmFieldT fpv "price_condition_availability" "condition"

/-- `getAvailability`: default from feed inventory (`custom` with a truthy
`custom_setting` reads the setting, any other truthy type is used verbatim —
including `custom` itself when the setting is missing); a truthy override
replaces the default. -/
def getAvailability (feed : TransformerFeed) (fpv : TransformerFeedProductVariant) : Option JVal :=
  let dflt : Option JVal :=
    match feed.inventory with
    | some inv =>
      match inv.type with
      | some ty =>
        if ty = "" then none
        else
          match inv.custom_setting with
          | some cs => if ty = "custom" ∧ cs ≠ "" then some (.str cs) else some (.str ty)
          | none => some (.str ty)
      | none => none
    | none => none
  match fmFieldT fpv "price_condition_availability" "availability" with
  | some v => some v
  | none => dflt

/-- `getProductType`: selector-driven list source. -/
def getProductType (product : TransformerProduct) (fpv : TransformerFeedProductVariant) :
    Option (List String) :=
  let field : JVal :=
    match fmFieldT fpv "price_condition_availability" "product_type" with
    | some v => v
    | none => .str "product_type"
  match field with
  | .str "product_type" =>
    match product.product_type with
    | some t => if t = "" then none else some [t]
    | none => none
  | .str "category_name" =>
    match product.category.bind (fun c => c.name) with
    | some n => if n = "" then none else some [n]
    | none => none
  | .str "category_fullname" =>
    match product.category.bind (fun c => c.full_name) with
    | some n => if n = "" then none else some [n]
    | none => none
  | .str "collections" =>
    match product.collections.bind (fun c => c.collections) with
    | some l => some (l.filterMap (fun t =>
        match t with
        | some s => if s = "" then none else some s
        | none => none))
    | none => none
  | .str "tags" =>
    match product.tags.bind (fun t => t.tags) with
    | some l => some l
    | none => none
  | _ => none

/-- `getGoogleProductCategory`: stringified feed metadata category id (falsy
result collapsing to null), replaced by a truthy override. -/
def getGoogleProductCategory (feed : TransformerFeed) (fpv : TransformerFeedProductVariant) :
    Option JVal :=
  let dflt : Option JVal :=
    match (feed.metadata.bind (fun m => m.google_merchant_center)).bind
        (fun g => g.product_category_id) with
    | some .null => none
    | some v => if jvalToStr v = "" then none else some (.str (jvalToStr v))
    | none => none
  match fmFieldT fpv "price_condition_availability" "google_product_category" with
  | some v => some v
  | none => dflt

/-- `getCustomLabels`: collects the truthy labels in index order — a gap
shifts later labels down, exactly as the source's `push` loop does. -/
def getCustomLabels (fpv : TransformerFeedProductVariant) : List JVal :=
  let lb := fmGet fpv "labels"
  (match jgetT lb "custom_label_0" with | some x => [x] | none => []) ++
  (match jgetT lb "custom_label_1" with | some x => [x] | none => []) ++
  (match jgetT lb "custom_label_2" with | some x => [x] | none => []) ++
  (match jgetT lb "custom_label_3" with | some x => [x] | none => []) ++
  (match jgetT lb "custom_label_4" with | some x => [x] | none => [])

/-- `certification.<key> || ''`. -/
def certField (v : JVal) (k : String) : JVal :=
  match jget v k with
  | some a => if truthy a then a else .str ""
  | none => .str ""

def certFromEntry (v : JVal) : Certification :=
  ⟨certField v "authority", certField v "name", certField v "code", certField v "value"⟩

/-- The certification loop: dereferencing a null element raises. -/
def certsOfList : List JVal → Except String (List Certification)
  | [] => .ok []
  | v :: rest =>
    match v with
    | JVal.null => .error "TypeError: cannot read properties of null"
    | _ => (certsOfList rest).map (fun l => certFromEntry v :: l)

/-- `for (const certification of additionalDetails.certifications)`: arrays
iterate elements, strings iterate characters (which have none of the four
keys), anything else truthy is not iterable and raises. -/
def certsOf : JVal → Except String (List Certification)
  | .arr xs => certsOfList xs
  | .str s => .ok (s.data.map (fun _ => ⟨.str "", .str "", .str "", .str ""⟩))
  | _ => .error "TypeError: certifications is not iterable"

/-- The certification re-keying of one truthy `additional_details` group. -/
def adCertifications (ad : JVal) :
    Except String (Option (JVal × Option (List Certification))) :=
  match jgetT (some ad) "certifications" with
  | none => .ok (some (ad, none))
  | some c => (certsOf c).map (fun l => some (ad, some l))

/-- `getAdditionalDetails`: the raw override group (for the scalar reads in
`transform`) together with the re-keyed certification list when the
`certifications` field is truthy — the source replaces the field in place;
the pure model returns the replacement alongside. -/
def getAdditionalDetails (fpv : TransformerFeedProductVariant) :
    Except String (Option (JVal × Option (List Certification))) :=
  match jTruthyOpt (fmGet fpv "additional_details") with
  | none => .ok none
  | some ad => adCertifications ad

def getShippingAndReturns (fpv : TransformerFeedProductVariant) : Option JVal :=
  jTruthyOpt (fmGet fpv "shipping_and_returns")

def getReturnPolicyLabels (fpv : TransformerFeedProductVariant) : Option JVal :=
  jgetT (fmGet fpv "shipping_and_returns") "return_policy_labels"

/-- `labels.join(',')` behind the `length > 0` guard: `.join` exists on
arrays but not on strings, so a non-empty string here raises. -/
def rplJoin (v : JVal) : Except String (Option String) :=
  if (jlen v).getD 0 > 0 then
    match v with
    | .arr xs => .ok (some (joinDisplayList xs))
    | _ => .error "TypeError: join is not a function"
  else .ok none

/-- The `return_policy_label` custom attribute: built when the truthy labels
value has `.length > 0`. -/
def getReturnPolicyLabelValue (fpv : TransformerFeedProductVariant) :
    Except String (Option String) :=
  match getReturnPolicyLabels fpv with
  | some v => rplJoin v
  | none => .ok none

def getAdditionalProductAttributes (fpv : TransformerFeedProductVariant) : Option JVal :=
  jTruthyOpt (fmGet fpv "additional_product_attributes")

/-- The custom attributes contributed by `additional_product_attributes`;
array values are joined with `,`. -/
def apaEntries (fpv : TransformerFeedProductVariant) : List CustomAttribute :=
  match getAdditionalProductAttributes fpv with
  | some v =>
    if (jentries v).length > 0 then
      (jentries v).map (fun p =>
        ⟨p.1, match p.2 with
          | .arr xs => .str (joinDisplayList xs)
          | x => x⟩)
    else []
  | none => []

/-- `{ value, unit }` shipping pair: value kept when truthy, unit raw. -/
def shipMeasure (sar : Option JVal) (vk uk : String) : Option ShippingMeasure :=
  match jgetT sar vk with
  | some v => some ⟨v, sar.bind (fun g => jget g uk)⟩
  | none => none

/-! ### `transform` -/

/-- The `attributes.gtins` value derived from a `getGtinsMpn` result
(`if (gtinsMpn.gtins && gtinsMpn.gtins.length > 0)`). -/
def gtinsAttr : Option GtinsMpnResult → Option (List String)
  | some r =>
    match r.gtins with
    | some l => if l.length > 0 then some l else none
    | none => none
  | none => none

/-- The `attributes.mpn` value derived from a `getGtinsMpn` result
(`if (gtinsMpn.mpn)`). -/
def mpnAttr : Option GtinsMpnResult → Option String
  | some r =>
    match r.mpn with
    | some m => if m = "" then none else some m
    | none => none
  | none => none

/-- The output record of `transform`, assembled from the pre-computed results
of the fallible helpers and the infallible resolvers.  Each conditional
`if (x) attributes.y = x` of the source sets an independent field, so the
record literal mirrors the imperative build-up exactly; `link` and
`canonicalLink` always start with `https://`, so their truthiness guards
always pass. -/
def transformCore (input : GoogleMerchantProductTransformInput) (now : String)
    (itemGroupId title description : String) (gm : Option GtinsMpnResult)
    (ad : Option (JVal × Option (List Certification))) (rpl : Option String) :
    ProductInput :=
  let shop := input.shop
  let feed := input.feed
  let product := input.product
  let variant := input.variant
  let fpv := input.feedProductVariant
  let accountId := getAccountId feed
  let offerId := getProductId feed fpv
  let contentLanguage := jsToLower feed.language
  let feedLabel := jsToUpper feed.market
  let currency := jsToUpper feed.currency
  let apd := jTruthyOpt (fmGet fpv "apparel_product_details")
  let sar := getShippingAndReturns fpv
  let adRaw : Option JVal := ad.map (fun p => p.1)
  let customLabels := getCustomLabels fpv
  { name :=
      if accountId = "" then none
      else some ("accounts/" ++ accountId ++ "/productInputs/" ++ "ONLINE" ++ "~" ++
        contentLanguage ++ "~" ++ feedLabel ++ "~" ++ offerId)
    channel := "ONLINE"
    offerId := offerId
    contentLanguage := contentLanguage
    feedLabel := feedLabel
    attributes := {
      itemGroupId := itemGroupId
      title := title
      description := description
      identifierExists := getIdentifierExists fpv
      price :=
        match getPrice variant fpv with
        | some p => ⟨p, currency⟩
        | none => ⟨getPriceAmountMicros variant fpv, currency⟩
      brand := getBrand feed shop product fpv
      gtins := gtinsAttr gm
      mpn := mpnAttr gm
      link := some (getLink shop feed product variant fpv now)
      canonicalLink := some (getCanonicalLink shop product)
      imageLink := jTruthyOpt (getImageLink input.mainImage fpv)
      additionalImageLinks :=
        if (jlen (getAdditionalImageLinks fpv)).getD 0 > 0 then
          some (getAdditionalImageLinks fpv)
        else none
      salePrice := (getSalePrice feed variant fpv).map (fun r => r.salePrice)
      salePriceEffectiveDate :=
        (getSalePrice feed variant fpv).map (fun r => r.salePriceEffectiveDate)
      autoPricingMinPrice :=
        match getAutoPricingMinPrice fpv with
        | some v =>
          match jsParseFloat v with
          | some q => some ⟨intDec (jsRound (q.mulPow10 6)), currency⟩
          | none => none
        | none => none
      maximumRetailPrice :=
        match getMaximumRetailPrice fpv with
        | some v =>
          match jsParseFloat v with
          | some q => some ⟨intDec (jsRound (q.mulPow10 6)), currency⟩
          | none => none
        | none => none
      condition := getCondition fpv
      availability := getAvailability feed fpv
      productTypes :=
        match getProductType product fpv with
        | some l => if l.length > 0 then some l else none
        | none => none
      googleProductCategory := getGoogleProductCategory feed fpv
      customLabel0 := customLabels[0]?
      customLabel1 := customLabels[1]?
      customLabel2 := customLabels[2]?
      customLabel3 := customLabels[3]?
      customLabel4 := customLabels[4]?
      gender := jgetT apd "gender"
      ageGroup := jgetT apd "age_group"
      size := jgetT apd "size"
      sizeTypes := jgetT apd "size_type"
      sizeSystem := jgetT apd "size_system"
      color := jgetT apd "color"
      material := jgetT apd "material"
      pattern := jgetT apd "pattern"
      adult := jgetT adRaw "adult"
      isBundle := jgetT adRaw "is_bundle"
      multipack := jgetT adRaw "multipack"
      energyEfficiencyClass := jgetT adRaw "energy_efficiency_class"
      minEnergyEfficiencyClass := jgetT adRaw "min_energy_efficiency_class"
      maxEnergyEfficiencyClass := jgetT adRaw "max_energy_efficiency_class"
      productHighlights := jgetT adRaw "product_highlights"
      certifications := ad.bind (fun p => p.2)
      shippingLabel := jgetT sar "shipping_label"
      shippingWeight := shipMeasure sar "shipping_weight_value" "shipping_weight_unit"
      shippingLength := shipMeasure sar "shipping_length_value" "shipping_length_unit"
      shippingWidth := shipMeasure sar "shipping_width_value" "shipping_width_unit"
      shippingHeight := shipMeasure sar "shipping_height_value" "shipping_height_unit"
      transitTimeLabel := jgetT sar "transit_time_label"
      minHandlingTime := jgetT sar "minimun_handling_time"
      maxHandlingTime := jgetT sar "maximum_handling_time" }
    customAttributes :=
      (match rpl with
       | some s => [⟨"return_policy_label", .str s⟩]
       | none => []) ++ apaEntries fpv }

/-- The results of the six helpers a JS TypeError can escape from, evaluated
in source order.  None of them reads the clock. -/
def resolveFallible (input : GoogleMerchantProductTransformInput) :
    Except String (String × String × String × Option GtinsMpnResult ×
      Option (JVal × Option (List Certification)) × Option String) :=
  match getItemGroupId input.feedProductVariant with
  | .error e => .error e
  | .ok itemGroupId =>
    match getTitle input.feed input.product input.variant input.feedProductVariant with
    | .error e => .error e
    | .ok title =>
      match getDescription input.feed input.product input.variant input.feedProductVariant with
      | .error e => .error e
      | .ok description =>
        match getGtinsMpn input.feed input.variant input.feedProductVariant with
        | .error e => .error e
        | .ok gm =>
          match getAdditionalDetails input.feedProductVariant with
          | .error e => .error e
          | .ok ad =>
            match getReturnPolicyLabelValue input.feedProductVariant with
            | .error e => .error e
            | .ok rpl => .ok (itemGroupId, title, description, gm, ad, rpl)

/-- `transform(input)`, with the single wall-clock read passed in as `now`.
The fallible helpers run in source order; a JS TypeError anywhere surfaces as
`Except.error`. -/
def transform (input : GoogleMerchantProductTransformInput) (now : String) :
    Except String ProductInput :=
  match resolveFallible input with
  | .error e => .error e
  | .ok (itemGroupId, title, description, gm, ad, rpl) =>
    .ok (transformCore input now itemGroupId title description gm ad rpl)

/-! ### Claim-side definitions -/

/-- `true` on a successful transform (the "never throws" reading). -/
def isOkB : Except String ProductInput → Bool
  | .ok _ => true
  | .error _ => false

/-- The emitted link, or `""` for a failed transform. -/
def linkOf : Except String ProductInput → String
  | .ok o => (o.attributes.link).getD ""
  | .error _ => ""

/-- The output with the link removed — everything the wall clock must not
influence. -/
def eraseLink (o : ProductInput) : ProductInput :=
  { o with attributes := { o.attributes with link := none } }

/-- The clock-independent part of the emitted link: everything up to and
including `fdclid=`. -/
def linkStem (shop : TransformerShop) (feed : TransformerFeed) (product : TransformerProduct)
    (variant : TransformerProductVariant) (fpv : TransformerFeedProductVariant) : String :=
  let raw := rawProductLink shop product variant fpv
  let parts := utmList feed fpv ++ ["fdclid="]
  "https://" ++
    (if strContains raw '?' then raw ++ "&" ++ joinSep "&" parts
     else raw ++ "?" ++ joinSep "&" parts)

/-- The clock-dependent token of the emitted link. -/
def fdclidToken (feed : TransformerFeed) (now : String) : String :=
  encryptToString feed.id feed.shop_id now

/-- A string of decimal digits only (the shape `amountMicros` is claimed to
always have). -/
def isDigitString (s : String) : Bool := s.data.all Char.isDigit

/-- Claim C2, gtins side: identifierExists truthy, feed identifier type
`gtin`, and a string override template that substitutes to a value that is
non-empty after trimming. -/
def gtinPresent (feed : TransformerFeed) (variant : TransformerProductVariant)
    (fpv : TransformerFeedProductVariant) : Bool :=
  truthy (getIdentifierExists fpv) &&
  ((feed.product_settings.bind (fun s => s.product_identifier)) == some "gtin") &&
  (match fmFieldT fpv "product_details" "gtin" with
   | some (.str s) => !(jsTrim (replaceTemplateVariables s variant fpv) = "")
   | _ => false)

/-- Claim C2, mpn side. -/
def mpnPresent (feed : TransformerFeed) (variant : TransformerProductVariant)
    (fpv : TransformerFeedProductVariant) : Bool :=
  truthy (getIdentifierExists fpv) &&
  ((feed.product_settings.bind (fun s => s.product_identifier)) == some "mpn") &&
  (match fmFieldT fpv "product_details" "mpn" with
   | some (.str s) => !(jsTrim (replaceTemplateVariables s variant fpv) = "")
   | _ => false)

/-- The feed-level sale-price gate. -/
def feedSaleEnabled (i : GoogleMerchantProductTransformInput) : Bool :=
  (i.feed.product_settings.bind (fun s => s.enable_sale_price)).getD false

/-- The `price_condition_availability` override group. -/
def pcaOf (i : GoogleMerchantProductTransformInput) : Option JVal :=
  fmGet i.feedProductVariant "price_condition_availability"

/-- Claim C3: both sale-price gates pass (the override group must be present
and truthy, and its own `enable_sale_price` truthy). -/
def salePriceGate (i : GoogleMerchantProductTransformInput) : Bool :=
  feedSaleEnabled i && otruthy (pcaOf i) &&
    otruthy ((pcaOf i).bind (fun v => jget v "enable_sale_price"))

/-- The raw `sale_price` source-type override (truthiness-filtered, as the
source reads it). -/
def saleTypeOf (i : GoogleMerchantProductTransformInput) : Option JVal :=
  jgetT (pcaOf i) "sale_price"

/-- Claim C6: the `name` value dictated by the claim — omitted when no account
id resolves, else the `accounts/{accountId}/productInputs/{channel}~…` path. -/
def claimedName (i : GoogleMerchantProductTransformInput) : Option String :=
  if getAccountId i.feed = "" then none
  else some ("accounts/" ++ getAccountId i.feed ++ "/productInputs/" ++ "ONLINE" ++ "~" ++
    jsToLower i.feed.language ++ "~" ++ jsToUpper i.feed.market ++ "~" ++
    getProductId i.feed i.feedProductVariant)

/-- The truthy availability override. -/
def availOverride (fpv : TransformerFeedProductVariant) : Option JVal :=
  fmFieldT fpv "price_condition_availability" "availability"

/-- A set override at a template position must be a string, or `.replace`
raises (the positions this is applied to are truthiness-filtered reads, so
falsy values never reach them). -/
def strOkB : Option JVal → Bool
  | some x => isStr x
  | none => true

/-- Claim C5 (amended): the override positions on which the source calls
methods are well-typed — template fields are strings when truthy,
`return_policy_labels` is an array when truthy, and `certifications` (when
truthy) is an array without null entries. -/
def wfFieldMapping (fpv : TransformerFeedProductVariant) : Bool :=
  strOkB (fmFieldT fpv "product_details" "item_group_id") &&
  strOkB (fmFieldT fpv "product_details" "product_title") &&
  strOkB (fmFieldT fpv "product_details" "description") &&
  strOkB (fmFieldT fpv "product_details" "gtin") &&
  strOkB (fmFieldT fpv "product_details" "mpn") &&
  (match getReturnPolicyLabels fpv with
   | some v => isArr v
   | none => true) &&
  (match jgetT (jTruthyOpt (fmGet fpv "additional_details")) "certifications" with
   | some (.arr xs) => xs.all (fun x => match x with | .null => false | _ => true)
   | some (.str _) => true
   | some _ => false
   | none => true)

/-! ### Concrete inputs used by the counterexamples and witnesses -/

/-- A minimal well-formed input: every required upstream field present, no
field mapping. -/
def baseInput : GoogleMerchantProductTransformInput :=
  { shop := { shop_name := some "Shop", domain := some "shop.com" }
    feed :=
      { id := "f1", shop_id := "s1", language := "en", market := "us", currency := "usd"
        product_settings := none, metadata := none, tracking := none, inventory := none }
    product :=
      { id := some "p1", title := some "Tee", description := some "A tee"
        vendor := some "Acme", handle := some "tee", product_type := none
        category := none, collections := none, tags := none, seo := none }
    variant :=
      { id := "v1", title := none, display_name := none, sku := none, barcode := none
        price := some ⟨5, 0⟩, compare_at_price := none }
    mainImage := none
    feedProductVariant :=
      { product_id := "p1", variant_id := "v1", field_mapping := none, metadata := none } }

/-- A frozen clock for the closed theorems. -/
def tFrozen : String := "2024-01-01T00:00:00.000Z"

/-! ### Basic lemmas -/

theorem jgetT_truthy {g : Option JVal} {k : String} {v : JVal}
    (h : jgetT g k = some v) : truthy v = true := by
  unfold jgetT at h
  cases hb : g.bind (fun x => jget x k) with
  | none => rw [hb] at h; exact absurd h (by simp)
  | some w =>
    rw [hb] at h
    by_cases ht : truthy w
    · simp [ht] at h; rwa [← h]
    · simp [ht] at h

theorem jsTrim_empty : jsTrim "" = "" := rfl

theorem ne_empty_of_jsTrim_ne {s : String} (h : jsTrim s ≠ "") : s ≠ "" := by
  intro he; exact h (he ▸ jsTrim_empty)

theorem lit_append_ne_empty (s t : String) (c : Char) (cs : List Char)
    (hs : s.data = c :: cs) : s ++ t ≠ "" := by
  intro h
  have h2 := congrArg String.data h
  rw [String.data_append s t, hs] at h2
  simp at h2

theorem joinSep_last (sep a b : String) :
    ∀ xs : List String, joinSep sep (xs ++ [a ++ b]) = joinSep sep (xs ++ [a]) ++ b
  | [] => rfl
  | [x] => by simp [joinSep, String.append_assoc]
  | x :: y :: rest => by
    have ih := joinSep_last sep a b (y :: rest)
    simp only [List.cons_append, List.append_eq, joinSep] at ih ⊢
    rw [ih, ← String.append_assoc]

theorem getLink_eq (shop : TransformerShop) (feed : TransformerFeed)
    (product : TransformerProduct) (variant : TransformerProductVariant)
    (fpv : TransformerFeedProductVariant) (now : String) :
    getLink shop feed product variant fpv now =
      linkStem shop feed product variant fpv ++ fdclidToken feed now := by
  unfold getLink addUtmParameters linkStem fdclidToken
  cases hc : strContains (rawProductLink shop product variant fpv) '?' <;>
    simp [hc, joinSep_last "&" "fdclid=" (encryptToString feed.id feed.shop_id now)
      (utmList feed fpv), String.append_assoc]

/-- C1's failing input: a price with sub-micro precision, so that the missing
rounding is visible even in exact arithmetic. -/
def c1Input : GoogleMerchantProductTransformInput :=
  { baseInput with variant := { baseInput.variant with price := some ⟨1, 7⟩ } }

/-- C7's failing input: a lowercase currency and sale pricing enabled at both
levels. -/
def c7Input : GoogleMerchantProductTransformInput :=
  { baseInput with
    feed := { baseInput.feed with
      product_settings := some
        { product_id := none, product_title := none, product_description := none
          brand_submission := none, product_identifier := none
          enable_sale_price := some true } }
    feedProductVariant := { baseInput.feedProductVariant with
      field_mapping := some (.obj
        [("price_condition_availability", .obj
          [("enable_sale_price", .jbool true), ("sale_price", .str "price")])]) } }

/-- C5's failing input: a truthy non-string `item_group_id` template. -/
def c5BadInput : GoogleMerchantProductTransformInput :=
  { baseInput with
    feedProductVariant := { baseInput.feedProductVariant with
      field_mapping := some (.obj
        [("product_details", .obj [("item_group_id", .num ⟨42, 0⟩)])]) } }

/-- C9 witness: the spec scenario — inventory `{type: "custom",
custom_setting: "preorder"}`, no override — emits availability `"preorder"`. -/
def c9Input : GoogleMerchantProductTransformInput :=
  { baseInput with
    feed := { baseInput.feed with
      inventory := some { type := some "custom", custom_setting := some "preorder" } } }

/-- C10 witness input: both gates on, nothing else configured. -/
def c10Input : GoogleMerchantProductTransformInput :=
  { baseInput with
    feed := { baseInput.feed with
      product_settings := some
        { product_id := none, product_title := none, product_description := none
          brand_submission := none, product_identifier := none
          enable_sale_price := some true } }
    feedProductVariant := { baseInput.feedProductVariant with
      field_mapping := some (.obj
        [("price_condition_availability", .obj [("enable_sale_price", .jbool true)])]) } }

/-- C5 witness input: a well-typed override document that also exercises the
silent drop of an unparsable numeric price override. -/
def c5GoodInput : GoogleMerchantProductTransformInput :=
  { baseInput with
    feedProductVariant := { baseInput.feedProductVariant with
      field_mapping := some (.obj
        [("product_details", .obj
           [("item_group_id", .str "\x7b\x7bproduct_id\x7d\x7d-g"),
            ("product_title", .str "T \x7b\x7bsku\x7d\x7d")]),
         ("price_condition_availability", .obj
           [("auto_pricing_min_price", .str "not-a-number")]),
         ("shipping_and_returns", .obj
           [("return_policy_labels", .arr [.str "a", .str "b"])]),
         ("additional_details", .obj
           [("certifications", .arr [.obj [("authority", .str "A")]])])]) } }

/-! ### Claim theorems -/

/-- C1 (code bug): `getPrice` emits `String(price × 1e6)` with no rounding —
for `variant.price = 0.0000001` the emitted `attributes.price.amountMicros`
is `"0.1"`, not the digit string `"0"` = `round(price × 1e6)` the claim (and
the integer micros format, which the sibling `autoPricingMinPrice` /
`maximumRetailPrice` paths honour via `Math.round`) requires. -/
theorem price_amountMicros_unrounded :
    (transform c1Input tFrozen).map (fun o => o.attributes.price.amountMicros) =
      .ok "0.1" ∧
    intDec (jsRound (JsNumber.mulPow10 ⟨1, 7⟩ 6)) = "0" ∧
    isDigitString "0.1" = false :=
  ⟨rfl, by decide, by decide⟩

/-- C7 (code bug): `getSalePrice` initializes `currencyCode` to `""` and never
assigns it (its `feed` parameter, documented "for currency code", is unused),
so an emitted `salePrice` carries the empty currency code while the sibling
`price` field correctly carries the uppercased feed currency. -/
theorem salePrice_currencyCode_empty :
    (transform c7Input tFrozen).map
        (fun o => o.attributes.salePrice.map (fun p => p.currencyCode)) =
      .ok (some "") ∧
    (transform c7Input tFrozen).map (fun o => o.attributes.price.currencyCode) =
      .ok "USD" ∧
    jsToUpper c7Input.feed.currency = "USD" :=
  ⟨rfl, rfl, rfl⟩

/-- C4 (counterexample): on the claimed scenario input the emitted link does
not match the claimed `…?variant=v1?fdclid=…` pattern — the `fdclid`
parameter is joined with `&`, not `?`, because the default link already
carries a query string. -/
theorem link_claimed_pattern_fails :
    strStarts "https://shop.com/products/tee?variant=v1?fdclid="
      (linkOf (transform baseInput tFrozen)) = false :=
  rfl

/-- C4 (amended): for the scenario input and any clock reading the link is
exactly `https://shop.com/products/tee?variant=v1&fdclid=<token>` — the first
appended parameter joins with `&` since the default link already has a query
string (`?` would be used only on a link without one), and subsequent
parameters always join with `&`. -/
theorem link_default_pattern (t : String) :
    (transform baseInput t).map (fun o => o.attributes.link) =
      .ok (some ("https://shop.com/products/tee?variant=v1&fdclid=" ++
        encryptToString "f1" "s1" t)) := by
  have h : resolveFallible baseInput = .ok ("p1", "", "", none, none, none) := rfl
  simp [transform, h, Except.map, transformCore, getLink_eq]
  rfl

/-- C5 (counterexample): a field-mapping document with a truthy non-string
template value (`item_group_id: 42`) makes `transform` raise a TypeError
instead of silently dropping the malformed override. -/
theorem transform_throws_on_nonstring_template :
    isOkB (transform c5BadInput tFrozen) = false :=
  rfl

/-- C8: two runs of `transform` on the same input differ only through the
wall-clock timestamp embedded in the `fdclid` token of `attributes.link`:
with the link removed the outputs are byte-identical for any two clock
readings (in particular for a frozen clock), and the link itself is the
clock-independent stem followed by the token of the current reading. -/
theorem clock_only_affects_fdclid (i : GoogleMerchantProductTransformInput)
    (t₁ t₂ : String) :
    (transform i t₁).map eraseLink = (transform i t₂).map eraseLink ∧
    (transform i t₁).map (fun o => o.attributes.link) =
      (transform i t₁).map (fun _ =>
        some (linkStem i.shop i.feed i.product i.variant i.feedProductVariant ++
          fdclidToken i.feed t₁)) := by
  constructor
  · cases h : resolveFallible i with
    | error e => simp [transform, h]
    | ok tup =>
      obtain ⟨ig, ti, de, gm, ad, rpl⟩ := tup
      simp [transform, h, Except.map, transformCore, eraseLink]
  · cases h : resolveFallible i with
    | error e => simp [transform, h, Except.map]
    | ok tup =>
      obtain ⟨ig, ti, de, gm, ad, rpl⟩ := tup
      simp [transform, h, Except.map, transformCore, getLink_eq]

theorem getSalePrice_isSome (feed : TransformerFeed) (variant : TransformerProductVariant)
    (fpv : TransformerFeedProductVariant) :
    (getSalePrice feed variant fpv).isSome =
      ((feed.product_settings.bind (fun s => s.enable_sale_price)).getD false &&
       otruthy (fmGet fpv "price_condition_availability") &&
       otruthy ((fmGet fpv "price_condition_availability").bind
         (fun v => jget v "enable_sale_price"))) := by
  unfold getSalePrice
  cases h1 : (feed.product_settings.bind (fun s => s.enable_sale_price)).getD false
  · simp [h1]
  · cases h2 : otruthy (fmGet fpv "price_condition_availability")
    · simp [h1, h2]
    · cases h3 : otruthy ((fmGet fpv "price_condition_availability").bind
          (fun v => jget v "enable_sale_price"))
      · simp [h1, h2, h3]
      · simp [h1, h2, h3]

/-- C3: `salePrice` is emitted exactly when the feed-level flag is set and the
`price_condition_availability` override group is present (truthy) with its own
truthy `enable_sale_price`; it is absent whenever either flag is off or the
group is missing. -/
theorem salePrice_double_gate (i : GoogleMerchantProductTransformInput) (t : String) :
    (transform i t).map (fun o => o.attributes.salePrice.isSome) =
      (transform i t).map (fun _ => salePriceGate i) := by
  cases h : resolveFallible i with
  | error e => simp [transform, h, Except.map]
  | ok tup =>
    obtain ⟨ig, ti, de, gm, ad, rpl⟩ := tup
    simp [transform, h, Except.map, transformCore, getSalePrice_isSome,
      salePriceGate, feedSaleEnabled, pcaOf]

/-- C6: the top-level `name` is present iff an account id resolves from the
feed metadata, in which case it is exactly
`accounts/{accountId}/productInputs/{channel}~{contentLanguage}~{feedLabel}~{offerId}`;
when no account id resolves the key is omitted, and it is never the empty
string. -/
theorem name_presence_and_format (i : GoogleMerchantProductTransformInput) (t : String) :
    (transform i t).map (fun o => o.name) =
      (transform i t).map (fun _ => claimedName i) ∧
    claimedName i ≠ some "" := by
  constructor
  · cases h : resolveFallible i with
    | error e => simp [transform, h, Except.map]
    | ok tup =>
      obtain ⟨ig, ti, de, gm, ad, rpl⟩ := tup
      simp [transform, h, Except.map, transformCore, claimedName]
  · unfold claimedName
    split
    · simp
    · simp only [ne_eq, Option.some.injEq, String.append_assoc]
      exact fun hc => lit_append_ne_empty "accounts/" _ 'a' "ccounts/".data rfl hc

theorem resolveFallible_gm (i : GoogleMerchantProductTransformInput)
    {ig ti de : String} {gm : Option GtinsMpnResult}
    {ad : Option (JVal × Option (List Certification))} {rpl : Option String}
    (h : resolveFallible i = .ok (ig, ti, de, gm, ad, rpl)) :
    getGtinsMpn i.feed i.variant i.feedProductVariant = .ok gm := by
  unfold resolveFallible at h
  repeat' split at h
  all_goals simp_all

theorem trim_cond_iff (g : String) : (g ≠ "" ∧ jsTrim g ≠ "") ↔ jsTrim g ≠ "" :=
  ⟨fun h => h.2, fun h => ⟨ne_empty_of_jsTrim_ne h, h⟩⟩

set_option maxHeartbeats 1600000 in
theorem getGtinsMpn_attrs (feed : TransformerFeed) (variant : TransformerProductVariant)
    (fpv : TransformerFeedProductVariant) (gm : Option GtinsMpnResult)
    (h : getGtinsMpn feed variant fpv = .ok gm) :
    (gtinsAttr gm).isSome = gtinPresent feed variant fpv ∧
    (mpnAttr gm).isSome = mpnPresent feed variant fpv := by
  unfold getGtinsMpn readTemplateField at h
  simp only [bind, Except.bind, trim_cond_iff] at h
  rcases hg : fmFieldT fpv "product_details" "gtin" with _ | vg <;>
    rcases hm : fmFieldT fpv "product_details" "mpn" with _ | vm <;>
    rw [hg, hm] at h
  all_goals try cases vg
  all_goals try cases vm
  all_goals try simp at h
  all_goals repeat' split at h
  all_goals try simp at h
  all_goals try subst h
  all_goals simp_all [gtinsAttr, mpnAttr, gtinPresent, mpnPresent, beq_iff_eq]
  all_goals try (split <;> simp_all [jsTrim_empty])
  all_goals try (intro hx; simp_all)
  all_goals try (intro hx; rcases hps : feed.product_settings with _ | a <;> simp_all)
  all_goals try (constructor <;> intro hx <;> simp_all)
  all_goals try (constructor <;> intro hx <;>
    rcases hps : feed.product_settings with _ | a <;> simp_all)
  all_goals (casesm* _ ∧ _; subst_vars; simp_all)

/-- C2: `gtins` (resp. `mpn`) is emitted iff `identifierExists` resolves
truthy, the feed's `product_identifier` is `gtin` (resp. `mpn`), and the
substituted override template is non-empty after trimming; the two conditions
are mutually exclusive on `product_identifier`, so the gtin path never emits
`mpn` and the mpn path never emits `gtins`. -/
theorem gtins_mpn_presence (i : GoogleMerchantProductTransformInput) (t : String) :
    (transform i t).map (fun o => (o.attributes.gtins.isSome, o.attributes.mpn.isSome)) =
      (transform i t).map (fun _ =>
        (gtinPresent i.feed i.variant i.feedProductVariant,
         mpnPresent i.feed i.variant i.feedProductVariant)) := by
  cases h : resolveFallible i with
  | error e => simp [transform, h, Except.map]
  | ok tup =>
    obtain ⟨ig, ti, de, gm, ad, rpl⟩ := tup
    have hc := getGtinsMpn_attrs i.feed i.variant i.feedProductVariant gm
      (resolveFallible_gm i h)
    simp [transform, h, Except.map, transformCore, hc.1, hc.2]

theorem getAvailability_of_override (feed : TransformerFeed)
    (fpv : TransformerFeedProductVariant) (v : JVal)
    (h : availOverride fpv = some v) : getAvailability feed fpv = some v := by
  unfold availOverride at h
  unfold getAvailability
  rw [h]

theorem getAvailability_custom (feed : TransformerFeed)
    (fpv : TransformerFeedProductVariant) (cs : String)
    (h : availOverride fpv = none)
    (hinv : feed.inventory = some ⟨some "custom", some cs⟩) (hcs : cs ≠ "") :
    getAvailability feed fpv = some (.str cs) := by
  unfold availOverride at h
  unfold getAvailability
  rw [h, hinv]
  simp [hcs]

theorem getAvailability_verbatim (feed : TransformerFeed)
    (fpv : TransformerFeedProductVariant) (ty : String) (ocs : Option String)
    (h : availOverride fpv = none) (hinv : feed.inventory = some ⟨some ty, ocs⟩)
    (hty : ty ≠ "custom") (hne : ty ≠ "") :
    getAvailability feed fpv = some (.str ty) := by
  unfold availOverride at h
  unfold getAvailability
  rw [h, hinv]
  cases ocs <;> simp [hty, hne]

/-- C9: `attributes.availability` — a truthy
`price_condition_availability.availability` override always wins; with no
override, a feed inventory of type `custom` with a non-empty `custom_setting`
emits the setting (in particular `{type: "custom", custom_setting:
"preorder"}` emits `"preorder"`), and a non-`custom` inventory type is used
verbatim. -/
theorem transform_avail_map (i : GoogleMerchantProductTransformInput) (t : String)
    (v : Option JVal) (hv : getAvailability i.feed i.feedProductVariant = v) :
    (transform i t).map (fun o => o.attributes.availability) =
      (transform i t).map (fun _ => v) := by
  cases h : resolveFallible i with
  | error e => simp [transform, h, Except.map]
  | ok tup =>
    obtain ⟨ig, ti, de, gm, ad, rpl⟩ := tup
    simp [transform, h, Except.map, transformCore, hv]

/-- C9: `attributes.availability` — a truthy
`price_condition_availability.availability` override always wins; with no
override, a feed inventory of type `custom` with a non-empty `custom_setting`
emits the setting (in particular `{type: "custom", custom_setting:
"preorder"}` emits `"preorder"`), and a non-`custom` inventory type is used
verbatim. -/
theorem availability_resolution (i : GoogleMerchantProductTransformInput) (t : String) :
    (∀ v, availOverride i.feedProductVariant = some v →
      (transform i t).map (fun o => o.attributes.availability) =
        (transform i t).map (fun _ => some v)) ∧
    (∀ cs, availOverride i.feedProductVariant = none →
      i.feed.inventory = some ⟨some "custom", some cs⟩ → cs ≠ "" →
      (transform i t).map (fun o => o.attributes.availability) =
        (transform i t).map (fun _ => some (.str cs))) ∧
    (∀ ty ocs, availOverride i.feedProductVariant = none →
      i.feed.inventory = some ⟨some ty, ocs⟩ → ty ≠ "custom" → ty ≠ "" →
      (transform i t).map (fun o => o.attributes.availability) =
        (transform i t).map (fun _ => some (.str ty))) :=
  ⟨fun v hv =>
      transform_avail_map i t (some v) (getAvailability_of_override i.feed _ v hv),
    fun cs ho hinv hcs =>
      transform_avail_map i t (some (.str cs)) (getAvailability_custom i.feed _ cs ho hinv hcs),
    fun ty ocs ho hinv hty hne =>
      transform_avail_map i t (some (.str ty))
        (getAvailability_verbatim i.feed _ ty ocs ho hinv hty hne)⟩

theorem getSalePrice_defaults (feed : TransformerFeed)
    (variant : TransformerProductVariant) (fpv : TransformerFeedProductVariant)
    (h1 : (feed.product_settings.bind (fun s => s.enable_sale_price)).getD false = true)
    (h2 : otruthy (fmGet fpv "price_condition_availability") = true)
    (h3 : otruthy ((fmGet fpv "price_condition_availability").bind
      (fun v => jget v "enable_sale_price")) = true)
    (h4 : jgetT (fmGet fpv "price_condition_availability") "sale_price" ≠
      some (.str "price"))
    (h5 : jgetT (fmGet fpv "price_condition_availability") "sale_price" ≠
      some (.str "compare_at_price"))
    (h6 : jgetT (fmGet fpv "price_condition_availability") "sale_start_date" = none)
    (h7 : jgetT (fmGet fpv "price_condition_availability") "sale_end_date" = none) :
    getSalePrice feed variant fpv = some ⟨⟨"", ""⟩, ⟨none, none⟩⟩ := by
  cases hst : jgetT (fmGet fpv "price_condition_availability") "sale_price" with
  | none =>
    simp only [getSalePrice, h1, h2, h3, h6, h7, hst, Bool.true_eq_false, if_false]
  | some v =>
    rw [hst] at h4 h5
    cases v <;>
      simp_all [getSalePrice, h1, h2, h3, h6, h7, hst, Bool.true_eq_false, if_false]

/-- C10: with both sale-price gates enabled, `salePrice` and
`salePriceEffectiveDate` are always emitted, even with nothing else
configured: the currency code is the empty string, the amount is the empty
string when the `sale_price` source type is absent or unrecognized, and the
effective-date window is the empty object when neither date is set. -/
theorem salePrice_empty_defaults (i : GoogleMerchantProductTransformInput) (t : String)
    (h1 : feedSaleEnabled i = true)
    (h2 : otruthy (pcaOf i) = true)
    (h3 : otruthy ((pcaOf i).bind (fun v => jget v "enable_sale_price")) = true)
    (h4 : saleTypeOf i ≠ some (.str "price"))
    (h5 : saleTypeOf i ≠ some (.str "compare_at_price"))
    (h6 : jgetT (pcaOf i) "sale_start_date" = none)
    (h7 : jgetT (pcaOf i) "sale_end_date" = none) :
    (transform i t).map
        (fun o => (o.attributes.salePrice, o.attributes.salePriceEffectiveDate)) =
      (transform i t).map (fun _ => (some ⟨"", ""⟩, some ⟨none, none⟩)) := by
  unfold feedSaleEnabled at h1
  unfold pcaOf at h2 h3 h6 h7
  unfold saleTypeOf pcaOf at h4 h5
  cases h : resolveFallible i with
  | error e => simp [transform, h, Except.map]
  | ok tup =>
    obtain ⟨ig, ti, de, gm, ad, rpl⟩ := tup
    simp [transform, h, Except.map, transformCore,
      getSalePrice_defaults i.feed i.variant i.feedProductVariant h1 h2 h3 h4 h5 h6 h7]

theorem availability_resolution_witness :
    (transform c9Input tFrozen).map (fun o => o.attributes.availability) =
      (transform c9Input tFrozen).map (fun _ => some (.str "preorder")) :=
  (availability_resolution c9Input tFrozen).2.1 "preorder" rfl rfl (by decide)

theorem salePrice_empty_defaults_witness :
    (transform c10Input tFrozen).map
        (fun o => (o.attributes.salePrice, o.attributes.salePriceEffectiveDate)) =
      (transform c10Input tFrozen).map (fun _ => (some ⟨"", ""⟩, some ⟨none, none⟩)) :=
  salePrice_empty_defaults c10Input tFrozen rfl rfl rfl
    (fun hx => Option.noConfusion hx) (fun hx => Option.noConfusion hx) rfl rfl

theorem getItemGroupId_ok (fpv : TransformerFeedProductVariant)
    (h : strOkB (fmFieldT fpv "product_details" "item_group_id") = true) :
    ∃ s, getItemGroupId fpv = .ok s := by
  unfold getItemGroupId
  cases hv : fmFieldT fpv "product_details" "item_group_id" with
  | none => exact ⟨_, rfl⟩
  | some x =>
    rw [hv] at h
    cases x <;> first | exact ⟨_, rfl⟩ | simp_all [strOkB, isStr]

theorem getTitle_ok (feed : TransformerFeed) (product : TransformerProduct)
    (variant : TransformerProductVariant) (fpv : TransformerFeedProductVariant)
    (h : strOkB (fmFieldT fpv "product_details" "product_title") = true) :
    ∃ s, getTitle feed product variant fpv = .ok s := by
  unfold getTitle
  cases hv : fmFieldT fpv "product_details" "product_title" with
  | none => exact ⟨_, rfl⟩
  | some x =>
    rw [hv] at h
    cases x <;> first | exact ⟨_, rfl⟩ | simp_all [strOkB, isStr]

theorem getDescription_ok (feed : TransformerFeed) (product : TransformerProduct)
    (variant : TransformerProductVariant) (fpv : TransformerFeedProductVariant)
    (h : strOkB (fmFieldT fpv "product_details" "description") = true) :
    ∃ s, getDescription feed product variant fpv = .ok s := by
  unfold getDescription
  cases hv : fmFieldT fpv "product_details" "description" with
  | none => exact ⟨_, rfl⟩
  | some x =>
    rw [hv] at h
    cases x <;> first | exact ⟨_, rfl⟩ | simp_all [strOkB, isStr]

theorem readTemplateField_ok (v : Option JVal) (variant : TransformerProductVariant)
    (fpv : TransformerFeedProductVariant) (h : strOkB v = true) :
    ∃ o, readTemplateField v variant fpv = .ok o := by
  unfold readTemplateField
  cases v with
  | none => exact ⟨_, rfl⟩
  | some x => cases x <;> first | exact ⟨_, rfl⟩ | simp_all [strOkB, isStr]

theorem getGtinsMpn_ok (feed : TransformerFeed) (variant : TransformerProductVariant)
    (fpv : TransformerFeedProductVariant)
    (hg : strOkB (fmFieldT fpv "product_details" "gtin") = true)
    (hm : strOkB (fmFieldT fpv "product_details" "mpn") = true) :
    ∃ r, getGtinsMpn feed variant fpv = .ok r := by
  unfold getGtinsMpn
  by_cases hie : truthy (getIdentifierExists fpv) = false
  · rw [if_pos hie]; exact ⟨_, rfl⟩
  · rw [if_neg hie]
    cases hp : feed.product_settings.bind (fun s => s.product_identifier) with
    | none => exact ⟨_, rfl⟩
    | some pid =>
      by_cases hno : pid = "" ∨ pid = "no"
      · refine ⟨none, ?_⟩
        simp [hno]
      · obtain ⟨g, hgr⟩ := readTemplateField_ok _ variant fpv hg
        obtain ⟨m, hmr⟩ := readTemplateField_ok _ variant fpv hm
        simp only [bind, Except.bind, hgr, hmr, hno, if_false, if_true,
          eq_self_iff_true]
        split
        · exact ⟨_, rfl⟩
        · split
          · exact ⟨_, rfl⟩
          · exact ⟨_, rfl⟩

theorem certsOfList_ok (xs : List JVal)
    (h : xs.all (fun x => match x with | .null => false | _ => true) = true) :
    ∃ l, certsOfList xs = .ok l := by
  induction xs with
  | nil => exact ⟨[], rfl⟩
  | cons x rest ih =>
    rw [List.all_cons, Bool.and_eq_true] at h
    obtain ⟨l, hl⟩ := ih h.2
    have h1 := h.1
    refine ⟨certFromEntry x :: l, ?_⟩
    cases x <;> simp_all [certsOfList, Except.map]

theorem getAdditionalDetails_ok (fpv : TransformerFeedProductVariant)
    (h : (match jgetT (jTruthyOpt (fmGet fpv "additional_details")) "certifications" with
      | some (.arr xs) => xs.all (fun x => match x with | .null => false | _ => true)
      | some (.str _) => true
      | some _ => false
      | none => true) = true) :
    ∃ r, getAdditionalDetails fpv = .ok r := by
  unfold getAdditionalDetails
  cases ha : jTruthyOpt (fmGet fpv "additional_details") with
  | none => exact ⟨_, rfl⟩
  | some ad =>
    rw [ha] at h
    show ∃ r, adCertifications ad = Except.ok r
    unfold adCertifications
    cases hc : jgetT (some ad) "certifications" with
    | none => exact ⟨_, rfl⟩
    | some c =>
      rw [hc] at h
      cases c with
      | str s2 => exact ⟨_, rfl⟩
      | arr xs =>
        obtain ⟨l, hl⟩ := certsOfList_ok xs h
        exact ⟨some (ad, some l), by simp [certsOf, hl, Except.map]⟩
      | num q => exact absurd h (by simp)
      | jbool b => exact absurd h (by simp)
      | null => exact absurd h (by simp)
      | obj kvs => exact absurd h (by simp)

theorem getReturnPolicyLabelValue_ok (fpv : TransformerFeedProductVariant)
    (h : (match getReturnPolicyLabels fpv with
      | some v => isArr v
      | none => true) = true) :
    ∃ r, getReturnPolicyLabelValue fpv = .ok r := by
  unfold getReturnPolicyLabelValue
  cases hr : getReturnPolicyLabels fpv with
  | none => exact ⟨_, rfl⟩
  | some v =>
    rw [hr] at h
    show ∃ r, rplJoin v = Except.ok r
    unfold rplJoin
    by_cases hl : (jlen v).getD 0 > 0
    · rw [if_pos hl]
      cases v <;> first | exact ⟨_, rfl⟩ | simp_all [isArr, jlen]
    · rw [if_neg hl]; exact ⟨_, rfl⟩

theorem resolveFallible_of_wf (i : GoogleMerchantProductTransformInput)
    (h : wfFieldMapping i.feedProductVariant = true) :
    ∃ tup, resolveFallible i = .ok tup := by
  unfold wfFieldMapping at h
  simp only [Bool.and_eq_true] at h
  obtain ⟨⟨⟨⟨⟨⟨h1, h2⟩, h3⟩, h4⟩, h5⟩, h6⟩, h7⟩ := h
  obtain ⟨s1, e1⟩ := getItemGroupId_ok _ h1
  obtain ⟨s2, e2⟩ := getTitle_ok i.feed i.product i.variant _ h2
  obtain ⟨s3, e3⟩ := getDescription_ok i.feed i.product i.variant _ h3
  obtain ⟨r4, e4⟩ := getGtinsMpn_ok i.feed i.variant _ h4 h5
  obtain ⟨r5, e5⟩ := getAdditionalDetails_ok _ h7
  obtain ⟨r6, e6⟩ := getReturnPolicyLabelValue_ok _ h6
  exact ⟨_, by unfold resolveFallible; rw [e1, e2, e3, e4, e5, e6]⟩

/-- C5 (amended): missing optional fields fall back to defaults and malformed
NUMERIC override values (unparsable price strings) are silently dropped, but
type-malformed values at method-call positions throw; with those positions
well-typed — template overrides strings when set, `return_policy_labels` an
array, `certifications` an array without null entries — `transform` never
throws, for every input and clock reading. -/
theorem transform_total_of_wellTyped (i : GoogleMerchantProductTransformInput)
    (t : String) (h : wfFieldMapping i.feedProductVariant = true) :
    isOkB (transform i t) = true := by
  obtain ⟨tup, htup⟩ := resolveFallible_of_wf i h
  obtain ⟨a, b, c, d, e2, f⟩ := tup
  simp [transform, htup, isOkB]

theorem transform_total_of_wellTyped_witness :
    wfFieldMapping c5GoodInput.feedProductVariant = true ∧
    isOkB (transform c5GoodInput tFrozen) = true :=
  ⟨rfl, transform_total_of_wellTyped c5GoodInput tFrozen rfl⟩

end Feedology
